import Mathlib

/-!
Shallow embedding of the early-metrics / classification core of
`src/frontend/streamlit_app.py` (functions `compute_early_metrics` and
`score_and_classify`, with their helpers `_first_trade_ts`, `_buy_mask`,
`_amount_for_concentration`).

Modelling conventions:
* pandas float cells are rationals (`ℚ`); a nullable cell is `Option ℚ`
  (`none` = NaN/NaT).  The `time_to_first_trade_s` column can hold NaN
  (row skipped), `+inf` (no post-creation trade) or a finite value, so it
  gets its own three-way type `TTFVal`.
* timestamps are seconds (ℚ) on a common clock; `pd.Timedelta(minutes=m)`
  is `60*m`.
* a DataFrame is a list of row records plus booleans recording which of
  the optional columns are present (`"side" in sw.columns` etc.); a cell
  of an absent column is `none` in every row.
* Python `round(x, 1)` (round-half-to-even on the first decimal) is
  modelled exactly by `round1` below.
-/

namespace Trench

/-- Clamp a rational to `[0,1]`, as pandas `Series.clip(0, 1)` does cellwise. -/
def clamp01 (q : ℚ) : ℚ := max 0 (min 1 q)

/-- Round a rational to the nearest integer, ties to even: the semantics of
Python `round` on exact values. -/
def rhe (q : ℚ) : ℤ :=
  if q - (⌊q⌋ : ℚ) < 1/2 then ⌊q⌋
  else if 1/2 < q - (⌊q⌋ : ℚ) then ⌊q⌋ + 1
  else if ⌊q⌋ % 2 = 0 then ⌊q⌋ else ⌊q⌋ + 1

/-- Python `round(x, 1)`: round to one decimal digit, ties to even. -/
def round1 (q : ℚ) : ℚ := (rhe (q * 10) : ℚ) / 10

/-- Value of the `time_to_first_trade_s` column: NaN (initial sentinel),
+inf (no trade), or a finite number of seconds. -/
inductive TTFVal where
  | nan : TTFVal
  | inf : TTFVal
  | fin : ℚ → TTFVal
deriving DecidableEq, Repr

/-- The metric columns that `compute_early_metrics` writes and
`score_and_classify` reads, one record per pair row. -/
structure MetricsRow where
  time_to_first_trade_s : TTFVal
  first_trade_ts : Option ℚ
  swaps_in_burst : ℚ
  swaps_per_min_burst : ℚ
  uniq_traders_10m : ℚ
  buy_ratio_15m : Option ℚ
  top5_concentration : Option ℚ
  lp_add_usd_15 : ℚ
  lp_remove_usd_15 : ℚ
deriving DecidableEq, Repr

/-- The all-sentinel row the extractor initialises every pair with. -/
def sentinelRow : MetricsRow :=
  { time_to_first_trade_s := .nan
    first_trade_ts := none
    swaps_in_burst := 0
    swaps_per_min_burst := 0
    uniq_traders_10m := 0
    buy_ratio_15m := none
    top5_concentration := none
    lp_add_usd_15 := 0
    lp_remove_usd_15 := 0 }

/-- The keyword threshold parameters of `score_and_classify`. -/
structure Thresholds where
  ttf_ceil_s : ℚ
  min_swaps_per_min : ℚ
  min_uniques_10m : ℚ
  buy_ratio_center : ℚ
  buy_ratio_tol : ℚ
  max_concentration : ℚ
  leader_score_min : ℚ
deriving DecidableEq, Repr

/-- The default keyword values of `score_and_classify`. -/
def defaultThresholds : Thresholds :=
  { ttf_ceil_s := 600
    min_swaps_per_min := 20
    min_uniques_10m := 50
    buy_ratio_center := 55/100
    buy_ratio_tol := 25/100
    max_concentration := 70/100
    leader_score_min := 60 }

/-- The `1e-9` guard used in the sub-score denominators. -/
def eps : ℚ := 1/1000000000

/-- Sub-score `s_vel = (vel / max(min_swaps_per_min, 1e-9)).clip(0, 1)`. -/
def sVel (th : Thresholds) (m : MetricsRow) : ℚ :=
  clamp01 (m.swaps_per_min_burst / max th.min_swaps_per_min eps)

/-- Sub-score `s_uniq = (uniq / max(min_uniques_10m, 1e-9)).clip(0, 1)`. -/
def sUniq (th : Thresholds) (m : MetricsRow) : ℚ :=
  clamp01 (m.uniq_traders_10m / max th.min_uniques_10m eps)

/-- Sub-score `s_br = (1 - |br - center| / max(tol, 1e-9)).clip(0,1).fillna(0.5)`:
NaN propagates through the arithmetic and the clip, so a null buy ratio
comes out as the neutral 0.5. -/
def sBr (th : Thresholds) (m : MetricsRow) : ℚ :=
  match m.buy_ratio_15m with
  | none => 1/2
  | some b => clamp01 (1 - |b - th.buy_ratio_center| / max th.buy_ratio_tol eps)

/-- Sub-score `s_conc = (1 - (conc - 0.50) / 0.50).clip(0,1).fillna(0.5)`. -/
def sConc (m : MetricsRow) : ℚ :=
  match m.top5_concentration with
  | none => 1/2
  | some c => clamp01 (1 - (c - 1/2) / (1/2))

/-- `lp_pen = (lprem > 0.0).astype(float)`. -/
def lpPen (m : MetricsRow) : ℚ := if 0 < m.lp_remove_usd_15 then 1 else 0

/-- `gate_tradeable = ttf.fillna(inf) <= ttf_ceil_s` (NaN and inf both fail). -/
def gateTradeable (th : Thresholds) (m : MetricsRow) : Bool :=
  match m.time_to_first_trade_s with
  | .fin q => decide (q ≤ th.ttf_ceil_s)
  | _ => false

/-- `gate_velocity = vel >= min_swaps_per_min`. -/
def gateVelocity (th : Thresholds) (m : MetricsRow) : Bool :=
  decide (th.min_swaps_per_min ≤ m.swaps_per_min_burst)

/-- `gate_uniques = uniq >= min_uniques_10m`. -/
def gateUniques (th : Thresholds) (m : MetricsRow) : Bool :=
  decide (th.min_uniques_10m ≤ m.uniq_traders_10m)

/-- `gate_br = br.between(center - tol, center + tol, inclusive="both").fillna(True)`:
pandas `between` on the float ratio series returns a bool-dtype series in
which a null ratio compares False, so the `fillna(True)` has nothing to
fill — a null buy ratio fails the gate. -/
def gateBr (th : Thresholds) (m : MetricsRow) : Bool :=
  match m.buy_ratio_15m with
  | none => false
  | some b =>
      decide (th.buy_ratio_center - th.buy_ratio_tol ≤ b ∧
              b ≤ th.buy_ratio_center + th.buy_ratio_tol)

/-- `gate_conc = conc.fillna(0.50) <= max_concentration`. -/
def gateConc (th : Thresholds) (m : MetricsRow) : Bool :=
  decide ((m.top5_concentration.getD (1/2)) ≤ th.max_concentration)

/-- `gate_lp_ok = ~(lprem > 0.0)`. -/
def gateLpOk (m : MetricsRow) : Bool := ! decide (0 < m.lp_remove_usd_15)

/-- The weighted sub-score combination `0.35*s_vel + 0.35*s_uniq + 0.10*s_br + 0.20*s_conc`. -/
def rawScore (th : Thresholds) (m : MetricsRow) : ℚ :=
  35/100 * sVel th m + 35/100 * sUniq th m + 10/100 * sBr th m + 20/100 * sConc m

/-- `score_01 = (0.35*s_vel + 0.35*s_uniq + 0.10*s_br + 0.20*s_conc) * (1 - 0.9*lp_pen)`. -/
def score01 (th : Thresholds) (m : MetricsRow) : ℚ :=
  rawScore th m * (1 - 9/10 * lpPen m)

/-- `early_score = (score_01.clip(0, 1) * 100.0).round(1)`. -/
def earlyScore (th : Thresholds) (m : MetricsRow) : ℚ :=
  round1 (clamp01 (score01 th m) * 100)

/-- The per-row body of the classification loop of `score_and_classify`:
the label and the reason, first matching branch wins. -/
def classifyPair (th : Thresholds) (m : MetricsRow) : String × String :=
  if gateVelocity th m && gateUniques th m && gateBr th m && gateConc th m
      && decide (th.leader_score_min ≤ earlyScore th m) then
    ("Early Leader", "Velocity+Uniques+Balance+Dispersion")
  else if decide (35 ≤ earlyScore th m)
      || (gateVelocity th m && (gateUniques th m || gateBr th m)) then
    let missing :=
      (if gateConc th m then [] else ["Concentration"]) ++
      (if gateUniques th m then [] else ["Uniques"]) ++
      (if gateBr th m then [] else ["BuyRatio"])
    ("Hype / Risky", if missing.isEmpty then "Borderline" else String.intercalate " & " missing)
  else if ! gateTradeable th m then
    ("Loser (no early trades)", "No trade <=10m")
  else if ! gateLpOk m then
    ("Loser (early LP remove)", "LP removed <=15m")
  else
    let why :=
      (if gateVelocity th m then [] else ["Low velocity"]) ++
      (if gateUniques th m then [] else ["Low uniques"]) ++
      (if gateBr th m then [] else ["Unbalanced flow"])
    ("Loser", if why.isEmpty then "Weak" else String.intercalate " & " why)

/-! ## Data model of the input tables of `compute_early_metrics` -/

/-- pandas `Series.str.lower()` applied to one cell. -/
def pyLower (s : String) : String := String.mk (s.data.map Char.toLower)

/-- One row of the Pairs table; only the columns the extractor reads are
modelled (the remaining columns are passed through untouched). -/
structure PairRow where
  pair_address : Option String
  pair_created_at : Option ℚ
  snapshot_ts : Option ℚ
deriving DecidableEq, Repr

/-- `effective_created_at = pair_created_at.where(notna, snapshot_ts)`. -/
def effectiveCreatedAt (p : PairRow) : Option ℚ :=
  match p.pair_created_at with
  | some t => some t
  | none => p.snapshot_ts

/-- One row of the swaps table. -/
structure SwapRow where
  pair_address : String
  ts : Option ℚ
  trader_wallet : Option String
  side : Option String
  amount_in : Option ℚ
  amount_out : Option ℚ
  amount_usd : Option ℚ
deriving DecidableEq, Repr

/-- The swaps table: its rows plus which optional columns are present
(`"side" in sw.columns` etc.); a cell of an absent column is `none`. -/
structure SwapsTable where
  rows : List SwapRow
  hasSide : Bool
  hasTrader : Bool
  hasAmountUsd : Bool
  hasAmountIn : Bool
  hasAmountOut : Bool
deriving DecidableEq, Repr

/-- One row of the `pair_window_metrics` table (the fetcher always
provides the `buys`/`sells`/`snapshot_ts` columns). -/
structure PwmRow where
  pair_address : String
  snapshot_ts : Option ℚ
  buys : Option ℚ
  sells : Option ℚ
deriving DecidableEq, Repr

/-- One row of the `liquidity_events` table (the fetcher always provides
the `ts`/`action`/`value_usd` columns). -/
structure LpRow where
  pair_address : String
  ts : Option ℚ
  action : Option String
  value_usd : Option ℚ
deriving DecidableEq, Repr

/-! ## The helpers of `compute_early_metrics` -/

/-- `_first_trade_ts`: the minimum of the non-null timestamps, or null. -/
def firstTradeTs (sw : List SwapRow) : Option ℚ :=
  match sw.filterMap (fun s => s.ts) with
  | [] => none
  | t :: ts => some (ts.foldl min t)

/-- `side.astype(str).str.lower().eq("buy")` on one cell: a null becomes
the string `"nan"`, which never equals `"buy"`. -/
def sideIsBuy (s : SwapRow) : Bool :=
  match s.side with
  | some v => pyLower v == "buy"
  | none => false

/-- `_buy_mask`: per-swap buy flags from the `side` column when it is
present and not all null; otherwise the positional parity alternation. -/
def buyMask (hasSide : Bool) (sw : List SwapRow) : List Bool :=
  if hasSide && sw.any (fun s => s.side.isSome) then
    sw.map sideIsBuy
  else
    (List.range sw.length).map (fun i => i % 2 == 0)

/-- `_amount_for_concentration`: the first of `amount_usd`, `amount_in`,
`amount_out` whose column is present and not all null over the buy rows,
null cells coerced to 0; else a uniform weight of 1 per row. -/
def amountForConcentration (tbl : SwapsTable) (buysDf : List SwapRow) : List ℚ :=
  if tbl.hasAmountUsd && buysDf.any (fun s => s.amount_usd.isSome) then
    buysDf.map (fun s => s.amount_usd.getD 0)
  else if tbl.hasAmountIn && buysDf.any (fun s => s.amount_in.isSome) then
    buysDf.map (fun s => s.amount_in.getD 0)
  else if tbl.hasAmountOut && buysDf.any (fun s => s.amount_out.isSome) then
    buysDf.map (fun s => s.amount_out.getD 0)
  else
    buysDf.map (fun _ => 1)

/-- The pair's swaps kept by `sw[sw["ts"].fillna(Timestamp.max) >= created]`:
a null timestamp is filled with the maximal timestamp, hence kept. -/
def postCreationSwaps (tbl : SwapsTable) (addr : String) (created : ℚ) : List SwapRow :=
  (tbl.rows.filter (fun s => s.pair_address == addr)).filter
    (fun s => match s.ts with
      | none => true
      | some t => decide (created ≤ t))

/-- `sw[(sw["ts"] >= lo) & (sw["ts"] <= hi)]`: a null timestamp compares
false on both sides, hence is dropped. -/
def windowSwaps (sw : List SwapRow) (lo hi : ℚ) : List SwapRow :=
  sw.filter (fun s => match s.ts with
    | none => false
    | some t => decide (lo ≤ t) && decide (t ≤ hi))

/-- The buy ratio of the per-swap branch: `buys / max(buys + sells, 1.0)`
over the buy mask of the 15-minute window. -/
def swapBuyRatio (hasSide : Bool) (sw15 : List SwapRow) : ℚ :=
  let mask := buyMask hasSide sw15
  let buys : ℚ := (mask.filter (fun b => b)).length
  let sells : ℚ := (mask.filter (fun b => !b)).length
  buys / max (buys + sells) 1

/-- The pair's window-metrics rows (`pwm.groupby("pair_address")`). -/
def pwmRowsFor (pwm : List PwmRow) (addr : String) : List PwmRow :=
  pwm.filter (fun r => r.pair_address == addr)

/-- `pwm_df[(snapshot_ts >= lo) & (snapshot_ts <= hi)]`. -/
def pwmWindow (pdf : List PwmRow) (lo hi : ℚ) : List PwmRow :=
  pdf.filter (fun r => match r.snapshot_ts with
    | none => false
    | some t => decide (lo ≤ t) && decide (t ≤ hi))

/-- The `buy_ratio_15m` cell: the per-swap branch whenever the window is
non-empty and the `side` column is present in the table, else the
window-metrics fallback anchored at the creation instant, else null. -/
def buyRatioOf (tbl : SwapsTable) (pwm : List PwmRow) (addr : String)
    (created ft ratioM : ℚ) : Option ℚ :=
  let sw15 := windowSwaps (postCreationSwaps tbl addr created) ft (ft + 60 * ratioM)
  if !sw15.isEmpty && tbl.hasSide then
    some (swapBuyRatio tbl.hasSide sw15)
  else
    let pdf := pwmRowsFor pwm addr
    if pdf.isEmpty then none
    else
      let early := pwmWindow pdf created (created + 60 * ratioM)
      if early.isEmpty then none
      else
        let b : ℚ := (early.map (fun r => r.buys.getD 0)).sum
        let s : ℚ := (early.map (fun r => r.sells.getD 0)).sum
        some (b / max (b + s) 1)

/-- Insert into a descending-sorted list of rationals. -/
def insertDesc (x : ℚ) : List ℚ → List ℚ
  | [] => [x]
  | y :: ys => if y < x then x :: y :: ys else y :: insertDesc x ys

/-- Sort a list of rationals in descending order (`sort_values(ascending=False)`). -/
def sortDesc : List ℚ → List ℚ
  | [] => []
  | x :: xs => insertDesc x (sortDesc xs)

/-- The `top5_concentration` cell: over the buy rows of the 15-minute
window, group the amount weights by trader (null traders dropped, as
`groupby` does), and take top-5 volume over total volume if positive. -/
def concentrationOf (tbl : SwapsTable) (sw15 : List SwapRow) : Option ℚ :=
  if !sw15.isEmpty && tbl.hasTrader then
    let mask := buyMask tbl.hasSide sw15
    let buysDf := ((sw15.zip mask).filter (fun x => x.2)).map (fun x => x.1)
    if buysDf.isEmpty then none
    else
      let paired := buysDf.zip (amountForConcentration tbl buysDf)
      let traders := (buysDf.filterMap (fun s => s.trader_wallet)).dedup
      let sums := traders.map (fun w =>
        ((paired.filter (fun x => x.1.trader_wallet == some w)).map (fun x => x.2)).sum)
      let total := sums.sum
      if 0 < total then some (((sortDesc sums).take 5).sum / total) else none
  else none

/-- `uniq_traders_10m`: distinct non-null trader identities in the uniques
window, 0 when the column is absent or the window is empty. -/
def uniqTradersOf (tbl : SwapsTable) (w : List SwapRow) : ℚ :=
  if tbl.hasTrader && !w.isEmpty then
    ((w.filterMap (fun s => s.trader_wallet)).dedup).length
  else 0

/-- Whether a liquidity event's action, lower-cased, equals `a`
(`astype(str)` turns a null into `"nan"`). -/
def actionIs (e : LpRow) (a : String) : Bool :=
  match e.action with
  | some s => pyLower s == a
  | none => false

/-- The `(lp_add_usd_15, lp_remove_usd_15)` cells: USD sums of add/remove
events in the fixed 15-minute window after creation (null values as 0). -/
def lpSums (lp : List LpRow) (addr : String) (created : ℚ) : ℚ × ℚ :=
  let ledf := lp.filter (fun e => e.pair_address == addr)
  if ledf.isEmpty then (0, 0)
  else
    let win := ledf.filter (fun e => match e.ts with
      | none => false
      | some t => decide (created ≤ t) && decide (t ≤ created + 900))
    if win.isEmpty then (0, 0)
    else
      (((win.filter (fun e => actionIs e "add")).map (fun e => e.value_usd.getD 0)).sum,
       ((win.filter (fun e => actionIs e "remove")).map (fun e => e.value_usd.getD 0)).sum)

/-! ## `compute_early_metrics` -/

/-- The per-pair loop body of `compute_early_metrics`: the metric cells
written for one pair row (a pair with no address or no effective creation
instant keeps every sentinel). -/
def computeEarlyMetricsRow (burst_window_s uniques_window_m pwm_window_total_m : ℚ)
    (swaps : SwapsTable) (pwm : List PwmRow) (lp : List LpRow) (p : PairRow) : MetricsRow :=
  match p.pair_address, effectiveCreatedAt p with
  | some addr, some created =>
    let sw := postCreationSwaps swaps addr created
    let lps := lpSums lp addr created
    match firstTradeTs sw with
    | none =>
      { sentinelRow with
          time_to_first_trade_s := .inf
          lp_add_usd_15 := lps.1
          lp_remove_usd_15 := lps.2 }
    | some ft =>
      let burst := windowSwaps sw ft (ft + burst_window_s)
      let nb : ℚ := burst.length
      { time_to_first_trade_s := .fin (max 0 (ft - created))
        first_trade_ts := some ft
        swaps_in_burst := nb
        swaps_per_min_burst := nb / max (burst_window_s / 60) (1/1000000000)
        uniq_traders_10m := uniqTradersOf swaps (windowSwaps sw ft (ft + 60 * uniques_window_m))
        buy_ratio_15m := buyRatioOf swaps pwm addr created ft pwm_window_total_m
        top5_concentration :=
          concentrationOf swaps (windowSwaps sw ft (ft + 60 * pwm_window_total_m))
        lp_add_usd_15 := lps.1
        lp_remove_usd_15 := lps.2 }
  | _, _ => sentinelRow

/-- `compute_early_metrics`: the input Pairs rows, each augmented with its
metric cells. -/
def computeEarlyMetrics (burst_window_s uniques_window_m pwm_window_total_m : ℚ)
    (swaps : SwapsTable) (pwm : List PwmRow) (lp : List LpRow)
    (pairs : List PairRow) : List (PairRow × MetricsRow) :=
  pairs.map (fun p =>
    (p, computeEarlyMetricsRow burst_window_s uniques_window_m pwm_window_total_m
          swaps pwm lp p))

/-- The three columns `score_and_classify` appends to a row. -/
structure ScoreRow where
  early_score : ℚ
  classification : String
  reason : String
deriving DecidableEq, Repr

/-- One row of the output of `score_and_classify`. -/
def scoreRow (th : Thresholds) (m : MetricsRow) : ScoreRow :=
  { early_score := earlyScore th m
    classification := (classifyPair th m).1
    reason := (classifyPair th m).2 }

/-- `score_and_classify`: every row of its input, augmented with the
score, label and reason columns. -/
def scoreAndClassify (th : Thresholds) (l : List (PairRow × MetricsRow)) :
    List (PairRow × MetricsRow × ScoreRow) :=
  l.map (fun x => (x.1, x.2, scoreRow th x.2))

/-- The two-stage pipeline: `compute_early_metrics` then `score_and_classify`. -/
def pipeline (burst_window_s uniques_window_m pwm_window_total_m : ℚ)
    (th : Thresholds) (swaps : SwapsTable) (pwm : List PwmRow) (lp : List LpRow)
    (pairs : List PairRow) : List (PairRow × MetricsRow × ScoreRow) :=
  scoreAndClassify th
    (computeEarlyMetrics burst_window_s uniques_window_m pwm_window_total_m
      swaps pwm lp pairs)

/-! ## Spec-side definitions, written from the claims' words, for the
refinement theorems -/

/-- The classification label as the amended decision procedure states it:
the five rules in the fixed priority order, first match wins, with the
buy-ratio gate failing on a null ratio exactly as the code's gate does. -/
def claimLabel (th : Thresholds) (m : MetricsRow) : String :=
  if gateVelocity th m && gateUniques th m && gateBr th m && gateConc th m
      && decide (th.leader_score_min ≤ earlyScore th m) then "Early Leader"
  else if decide (35 ≤ earlyScore th m)
      || (gateVelocity th m && (gateUniques th m || gateBr th m)) then "Hype / Risky"
  else if ! gateTradeable th m then "Loser (no early trades)"
  else if ! gateLpOk m then "Loser (early LP remove)"
  else "Loser"

/-- The buy-ratio gate as the spec words it: within the tolerance band,
"treated true if null". This is NOT what the code computes — a null ratio
fails the code's gate. -/
def specGateBr (th : Thresholds) (m : MetricsRow) : Bool :=
  match m.buy_ratio_15m with
  | none => true
  | some b =>
      decide (th.buy_ratio_center - th.buy_ratio_tol ≤ b ∧
              b ≤ th.buy_ratio_center + th.buy_ratio_tol)

/-- The label chain exactly as claim C1 originally states it, using the
spec's `buy_ratio_ok` that treats a null ratio as passing. -/
def specLabelC1 (th : Thresholds) (m : MetricsRow) : String :=
  if gateVelocity th m && gateUniques th m && specGateBr th m && gateConc th m
      && decide (th.leader_score_min ≤ earlyScore th m) then "Early Leader"
  else if decide (35 ≤ earlyScore th m)
      || (gateVelocity th m && (gateUniques th m || specGateBr th m)) then "Hype / Risky"
  else if ! gateTradeable th m then "Loser (no early trades)"
  else if ! gateLpOk m then "Loser (early LP remove)"
  else "Loser"

/-- The composite score as the spec states it: the raw weighted sum is
clamped to `[0,1]` first, then discounted by the LP haircut, scaled to 100
and rounded to one decimal. -/
def claimEarlyScore (th : Thresholds) (m : MetricsRow) : ℚ :=
  round1 (clamp01 (rawScore th m) * (1 - 9/10 * lpPen m) * 100)

/-- The buy-ratio policy as the spec states it: when per-swap side data is
present (some swap in the window has a non-null side) and the window is
non-empty, the ratio comes from the per-swap sides; otherwise it is
`sum(buys)/(sum(buys)+sum(sells))` over the window-metrics rows whose
snapshot lies within the ratio window after creation; null when both
sources are empty. -/
def claimBuyRatio (tbl : SwapsTable) (pwm : List PwmRow) (addr : String)
    (created ft ratioM : ℚ) : Option ℚ :=
  let sw15 := windowSwaps (postCreationSwaps tbl addr created) ft (ft + 60 * ratioM)
  if !sw15.isEmpty && sw15.any (fun s => s.side.isSome) then
    let buys : ℚ := (sw15.filter sideIsBuy).length
    let sells : ℚ := (sw15.filter (fun s => ! sideIsBuy s)).length
    some (buys / max (buys + sells) 1)
  else
    let early := pwmWindow (pwmRowsFor pwm addr) created (created + 60 * ratioM)
    if early.isEmpty then none
    else
      let b : ℚ := (early.map (fun r => r.buys.getD 0)).sum
      let s : ℚ := (early.map (fun r => r.sells.getD 0)).sum
      some (b / (b + s))

/-- The buy-ratio policy as amended to match the code: the per-swap branch
is taken whenever the window is non-empty and the `side` column exists in
the table, with a parity alternation (even positions count as buys)
synthesized when every side value in the window is null; the
window-metrics fallback (with the `max(·,1)` guard and requiring a
non-empty pair group) is used only otherwise; null when both sources come
up empty. -/
def amendedBuyRatio (tbl : SwapsTable) (pwm : List PwmRow) (addr : String)
    (created ft ratioM : ℚ) : Option ℚ :=
  let sw15 := windowSwaps (postCreationSwaps tbl addr created) ft (ft + 60 * ratioM)
  if !sw15.isEmpty && tbl.hasSide then
    if sw15.any (fun s => s.side.isSome) then
      let buys : ℚ := (sw15.filter sideIsBuy).length
      let sells : ℚ := (sw15.filter (fun s => ! sideIsBuy s)).length
      some (buys / max (buys + sells) 1)
    else
      let buys : ℚ := ((List.range sw15.length).filter (fun i => i % 2 == 0)).length
      let sells : ℚ := ((List.range sw15.length).filter (fun i => ! (i % 2 == 0))).length
      some (buys / max (buys + sells) 1)
  else
    let pdf := pwmRowsFor pwm addr
    if pdf.isEmpty then none
    else
      let early := pwmWindow pdf created (created + 60 * ratioM)
      if early.isEmpty then none
      else
        let b : ℚ := (early.map (fun r => r.buys.getD 0)).sum
        let s : ℚ := (early.map (fun r => r.sells.getD 0)).sum
        some (b / max (b + s) 1)

/-! ## Helper lemmas -/

theorem clamp01_nonneg (q : ℚ) : 0 ≤ clamp01 q := le_max_left 0 _

theorem clamp01_le_one (q : ℚ) : clamp01 q ≤ 1 :=
  max_le (by norm_num) (min_le_left 1 q)

theorem clamp01_le_self {q : ℚ} (h : 0 ≤ q) : clamp01 q ≤ q :=
  max_le h (min_le_right 1 q)

theorem clamp01_of_mem {q : ℚ} (h0 : 0 ≤ q) (h1 : q ≤ 1) : clamp01 q = q := by
  unfold clamp01
  rw [min_eq_right h1, max_eq_right h0]

theorem clamp01_mono {q q' : ℚ} (h : q ≤ q') : clamp01 q ≤ clamp01 q' :=
  max_le_max le_rfl (min_le_min le_rfl h)

theorem sVel_nonneg (th : Thresholds) (m : MetricsRow) : 0 ≤ sVel th m := clamp01_nonneg _

theorem sVel_le_one (th : Thresholds) (m : MetricsRow) : sVel th m ≤ 1 := clamp01_le_one _

theorem sUniq_nonneg (th : Thresholds) (m : MetricsRow) : 0 ≤ sUniq th m := clamp01_nonneg _

theorem sUniq_le_one (th : Thresholds) (m : MetricsRow) : sUniq th m ≤ 1 := clamp01_le_one _

theorem sBr_nonneg (th : Thresholds) (m : MetricsRow) : 0 ≤ sBr th m := by
  unfold sBr
  rcases m.buy_ratio_15m with _ | b
  · norm_num
  · exact clamp01_nonneg _

theorem sBr_le_one (th : Thresholds) (m : MetricsRow) : sBr th m ≤ 1 := by
  unfold sBr
  rcases m.buy_ratio_15m with _ | b
  · norm_num
  · exact clamp01_le_one _

theorem sConc_nonneg (m : MetricsRow) : 0 ≤ sConc m := by
  unfold sConc
  rcases m.top5_concentration with _ | c
  · norm_num
  · exact clamp01_nonneg _

theorem sConc_le_one (m : MetricsRow) : sConc m ≤ 1 := by
  unfold sConc
  rcases m.top5_concentration with _ | c
  · norm_num
  · exact clamp01_le_one _

theorem rawScore_nonneg (th : Thresholds) (m : MetricsRow) : 0 ≤ rawScore th m := by
  have h1 := sVel_nonneg th m
  have h2 := sUniq_nonneg th m
  have h3 := sBr_nonneg th m
  have h4 := sConc_nonneg m
  unfold rawScore
  linarith

theorem rawScore_le_one (th : Thresholds) (m : MetricsRow) : rawScore th m ≤ 1 := by
  have h1 := sVel_le_one th m
  have h2 := sUniq_le_one th m
  have h3 := sBr_le_one th m
  have h4 := sConc_le_one m
  unfold rawScore
  linarith

theorem lpPen_eq_zero {m : MetricsRow} (h : ¬ 0 < m.lp_remove_usd_15) : lpPen m = 0 := by
  unfold lpPen
  rw [if_neg h]

theorem lpPen_eq_one {m : MetricsRow} (h : 0 < m.lp_remove_usd_15) : lpPen m = 1 := by
  unfold lpPen
  rw [if_pos h]

theorem score01_nonneg (th : Thresholds) (m : MetricsRow) : 0 ≤ score01 th m := by
  unfold score01 lpPen
  have h := rawScore_nonneg th m
  split_ifs <;> nlinarith

theorem score01_le_one (th : Thresholds) (m : MetricsRow) : score01 th m ≤ 1 := by
  unfold score01 lpPen
  have h0 := rawScore_nonneg th m
  have h1 := rawScore_le_one th m
  split_ifs <;> nlinarith

theorem floor_le_rhe (q : ℚ) : ⌊q⌋ ≤ rhe q := by
  unfold rhe
  split_ifs <;> omega

theorem rhe_le_floor_add_one (q : ℚ) : rhe q ≤ ⌊q⌋ + 1 := by
  unfold rhe
  split_ifs <;> omega

theorem rhe_nonneg {q : ℚ} (h : 0 ≤ q) : 0 ≤ rhe q :=
  le_trans (Int.floor_nonneg.mpr h) (floor_le_rhe q)

theorem rhe_le_intCast {q : ℚ} {n : ℤ} (h : q ≤ (n : ℚ)) : rhe q ≤ n := by
  have hfl : ⌊q⌋ ≤ n := by
    calc ⌊q⌋ ≤ ⌊(n : ℚ)⌋ := Int.floor_le_floor h
      _ = n := Int.floor_intCast n
  unfold rhe
  split_ifs with h1 h2 h3
  · exact hfl
  · -- the fractional part exceeds 1/2, so q is strictly above its floor
    have hq : (⌊q⌋ : ℚ) < q := by linarith
    have : (⌊q⌋ : ℚ) < (n : ℚ) := lt_of_lt_of_le hq h
    have : ⌊q⌋ < n := by exact_mod_cast this
    omega
  · exact hfl
  · have hq : (⌊q⌋ : ℚ) < q := by linarith
    have : (⌊q⌋ : ℚ) < (n : ℚ) := lt_of_lt_of_le hq h
    have : ⌊q⌋ < n := by exact_mod_cast this
    omega

theorem rhe_mono {q q' : ℚ} (h : q ≤ q') : rhe q ≤ rhe q' := by
  rcases lt_or_le ⌊q⌋ ⌊q'⌋ with hf | hf
  · calc rhe q ≤ ⌊q⌋ + 1 := rhe_le_floor_add_one q
      _ ≤ ⌊q'⌋ := by omega
      _ ≤ rhe q' := floor_le_rhe q'
  · have hf' : ⌊q'⌋ = ⌊q⌋ := le_antisymm hf (Int.floor_mono h)
    unfold rhe
    rw [hf']
    split_ifs <;> first | omega | linarith

theorem round1_nonneg {q : ℚ} (h : 0 ≤ q) : 0 ≤ round1 q := by
  unfold round1
  have : (0 : ℚ) ≤ (rhe (q * 10) : ℚ) := by
    exact_mod_cast rhe_nonneg (by linarith)
  linarith

theorem round1_mono {q q' : ℚ} (h : q ≤ q') : round1 q ≤ round1 q' := by
  unfold round1
  have : (rhe (q * 10) : ℚ) ≤ (rhe (q' * 10) : ℚ) := by
    exact_mod_cast rhe_mono (by linarith)
  linarith

theorem round1_le_intCast {q : ℚ} {n : ℤ} (h : q ≤ (n : ℚ)) : round1 q ≤ (n : ℚ) := by
  unfold round1
  have : rhe (q * 10) ≤ n * 10 := by
    apply rhe_le_intCast
    push_cast
    linarith
  have : (rhe (q * 10) : ℚ) ≤ ((n * 10 : ℤ) : ℚ) := by exact_mod_cast this
  push_cast at this
  linarith

theorem earlyScore_nonneg (th : Thresholds) (m : MetricsRow) : 0 ≤ earlyScore th m := by
  unfold earlyScore
  apply round1_nonneg
  have := clamp01_nonneg (score01 th m)
  linarith

theorem earlyScore_le_hundred (th : Thresholds) (m : MetricsRow) : earlyScore th m ≤ 100 := by
  unfold earlyScore
  have h : clamp01 (score01 th m) * 100 ≤ ((100 : ℤ) : ℚ) := by
    have := clamp01_le_one (score01 th m)
    push_cast
    linarith
  have := round1_le_intCast h
  push_cast at this
  linarith

/-- A row's label is "Early Leader" exactly when the first branch of the
decision procedure fires. -/
theorem classification_eq_leader_iff (th : Thresholds) (m : MetricsRow) :
    (scoreRow th m).classification = "Early Leader" ↔
      (gateVelocity th m && gateUniques th m && gateBr th m && gateConc th m
        && decide (th.leader_score_min ≤ earlyScore th m)) = true := by
  unfold scoreRow classifyPair
  split_ifs with h1 h2 h3 h4 <;> simp_all

/-- Any positive LP removal forces the composite score down to at most 10. -/
theorem earlyScore_le_ten_of_lpRemove (th : Thresholds) (m : MetricsRow)
    (h : 0 < m.lp_remove_usd_15) : earlyScore th m ≤ 10 := by
  unfold earlyScore
  have h1 : score01 th m ≤ 1/10 := by
    unfold score01
    rw [lpPen_eq_one h]
    have h2 := rawScore_le_one th m
    linarith
  have h3 : clamp01 (score01 th m) * 100 ≤ ((10 : ℤ) : ℚ) := by
    have h4 : clamp01 (score01 th m) ≤ 1/10 :=
      le_trans (clamp01_le_self (score01_nonneg th m)) h1
    push_cast
    linarith
  have h5 := round1_le_intCast h3
  push_cast at h5
  linarith

/-! ## Claim theorems -/

/-- C1 amended: for every metrics row, `score_and_classify` assigns the
label by the fixed priority chain — Early Leader (all four gates and score
at least `leader_score_min`), then Hype / Risky (score ≥ 35 or velocity
plus uniques-or-buy-ratio), then Loser (no early trades) when not
tradeable, then Loser (early LP remove) when `lp_ok` fails, then Loser —
first match wins, where the buy-ratio gate FAILS on a null ratio (pandas
`between` yields False on the null and the `fillna(True)` is a no-op);
being a function into one label/reason pair, each row gets exactly one
label and one reason. -/
theorem claim_C1_label_priority (th : Thresholds) (m : MetricsRow) :
    (scoreRow th m).classification = claimLabel th m := by
  unfold scoreRow classifyPair claimLabel
  split_ifs <;> rfl

/-- A row with fast trading, no unique-trader signal, a null buy ratio and
LP removed within the window. -/
def mNullBr : MetricsRow :=
  { time_to_first_trade_s := .fin 5
    first_trade_ts := some 5
    swaps_in_burst := 200
    swaps_per_min_burst := 100
    uniq_traders_10m := 0
    buy_ratio_15m := none
    top5_concentration := none
    lp_add_usd_15 := 0
    lp_remove_usd_15 := 50 }

theorem scoreRow_mNullBr_eval :
    (scoreRow defaultThresholds mNullBr).classification = "Loser (early LP remove)" := by
  unfold scoreRow classifyPair
  norm_num [gateVelocity, gateUniques, gateBr, gateConc, gateTradeable, gateLpOk,
    earlyScore, score01, rawScore, sVel, sUniq, sBr, sConc, lpPen, clamp01,
    defaultThresholds, mNullBr, eps, round1, rhe, min_def, max_def, Int.fract]

theorem specLabelC1_mNullBr_eval :
    specLabelC1 defaultThresholds mNullBr = "Hype / Risky" := by
  unfold specLabelC1
  norm_num [specGateBr, gateVelocity, gateUniques, gateConc, gateTradeable, gateLpOk,
    earlyScore, score01, rawScore, sVel, sUniq, sBr, sConc, lpPen, clamp01,
    defaultThresholds, mNullBr, eps, round1, rhe, min_def, max_def, Int.fract]

/-- C1 counterexample: at a row with high velocity, too few uniques, a
null buy ratio and LP removal (score 5.0 < 35), the code's `gate_br` is
False on the null ratio, so the code emits "Loser (early LP remove)",
while the rule chain as claimed — with `buy_ratio_ok` treated true on null
— yields "Hype / Risky". -/
theorem claim_C1_counterexample :
    (scoreRow defaultThresholds mNullBr).classification = "Loser (early LP remove)" ∧
    specLabelC1 defaultThresholds mNullBr = "Hype / Risky" ∧
    (scoreRow defaultThresholds mNullBr).classification ≠
      specLabelC1 defaultThresholds mNullBr := by
  refine ⟨scoreRow_mNullBr_eval, specLabelC1_mNullBr_eval, ?_⟩
  rw [scoreRow_mNullBr_eval, specLabelC1_mNullBr_eval]
  decide

/-- C2: the composite score equals the spec's formula (raw weighted sum of
the clamped sub-scores, clamped to `[0,1]`, LP haircut, scaled to 100,
rounded to one decimal — with `s_buy_ratio`/`s_concentration` defaulting
to 0.5 on null input by definition of `sBr`/`sConc`), and it always lies
in `[0, 100]`. -/
theorem claim_C2_score_formula (th : Thresholds) (m : MetricsRow) :
    earlyScore th m = claimEarlyScore th m ∧
    0 ≤ earlyScore th m ∧ earlyScore th m ≤ 100 := by
  refine ⟨?_, earlyScore_nonneg th m, earlyScore_le_hundred th m⟩
  unfold earlyScore claimEarlyScore
  rw [clamp01_of_mem (score01_nonneg th m) (score01_le_one th m),
      clamp01_of_mem (rawScore_nonneg th m) (rawScore_le_one th m)]
  unfold score01
  ring_nf

/-- C10: with any positive LP removal the 90% haircut bounds the score by
10, so whenever `leader_score_min > 10` such a row is never classified
Early Leader. -/
theorem claim_C10_lp_bound (th : Thresholds) (m : MetricsRow)
    (h : 0 < m.lp_remove_usd_15) :
    earlyScore th m ≤ 10 ∧
    (10 < th.leader_score_min → (scoreRow th m).classification ≠ "Early Leader") := by
  refine ⟨earlyScore_le_ten_of_lpRemove th m h, fun hlm hEL => ?_⟩
  rw [classification_eq_leader_iff] at hEL
  simp only [Bool.and_eq_true, decide_eq_true_eq] at hEL
  have h1 := earlyScore_le_ten_of_lpRemove th m h
  have h2 := hEL.2
  linarith

/-- Witness for C10 at a concrete row with LP removal 5. -/
theorem claim_C10_lp_bound_witness :
    earlyScore defaultThresholds { sentinelRow with lp_remove_usd_15 := 5 } ≤ 10 ∧
    (10 < defaultThresholds.leader_score_min →
      (scoreRow defaultThresholds
        { sentinelRow with lp_remove_usd_15 := 5 }).classification ≠ "Early Leader") :=
  claim_C10_lp_bound defaultThresholds _ (by norm_num)

/-! ## Concrete rows used by counterexamples and witnesses -/

/-- A row that never traded: all sentinels, time-to-first-trade +inf. -/
def mNoTrade : MetricsRow := { sentinelRow with time_to_first_trade_s := .inf }

/-- A tradeable all-sentinel row whose LP was removed in the window. -/
def mLpRemove : MetricsRow :=
  { sentinelRow with time_to_first_trade_s := .fin 0, lp_remove_usd_15 := 50 }

theorem scoreRow_mNoTrade_eval :
    scoreRow defaultThresholds mNoTrade =
      { early_score := 15, classification := "Loser (no early trades)",
        reason := "No trade <=10m" } := by
  unfold scoreRow classifyPair
  norm_num [gateVelocity, gateUniques, gateBr, gateConc, gateTradeable, gateLpOk,
    earlyScore, score01, rawScore, sVel, sUniq, sBr, sConc, lpPen, clamp01,
    defaultThresholds, mNoTrade, sentinelRow, eps, round1, rhe, min_def, max_def, Int.fract]

theorem scoreRow_mLpRemove_eval :
    scoreRow defaultThresholds mLpRemove =
      { early_score := 3/2, classification := "Loser (early LP remove)",
        reason := "LP removed <=15m" } := by
  unfold scoreRow classifyPair
  norm_num [gateVelocity, gateUniques, gateBr, gateConc, gateTradeable, gateLpOk,
    earlyScore, score01, rawScore, sVel, sUniq, sBr, sConc, lpPen, clamp01,
    defaultThresholds, mLpRemove, sentinelRow, eps, round1, rhe, min_def, max_def, Int.fract]

/-- C8 counterexample: a concrete row classified "Loser (no early trades)"
whose reason is the literal "No trade <=10m", not the claimed
"No trade within horizon." (and likewise the LP-remove reason is
"LP removed <=15m", not "LP removed within window."). -/
theorem claim_C8_counterexample :
    (scoreRow defaultThresholds mNoTrade).classification = "Loser (no early trades)" ∧
    (scoreRow defaultThresholds mNoTrade).reason = "No trade <=10m" ∧
    "No trade <=10m" ≠ "No trade within horizon." ∧
    (scoreRow defaultThresholds mLpRemove).classification = "Loser (early LP remove)" ∧
    (scoreRow defaultThresholds mLpRemove).reason = "LP removed <=15m" ∧
    "LP removed <=15m" ≠ "LP removed within window." := by
  rw [scoreRow_mNoTrade_eval, scoreRow_mLpRemove_eval]
  refine ⟨rfl, rfl, by decide, rfl, rfl, by decide⟩

/-- C8 amended: every row classified "Loser (no early trades)" carries the
reason "No trade <=10m", and every row classified "Loser (early LP
remove)" carries the reason "LP removed <=15m". -/
theorem claim_C8_amended (th : Thresholds) (m : MetricsRow) :
    ((scoreRow th m).classification = "Loser (no early trades)" →
      (scoreRow th m).reason = "No trade <=10m") ∧
    ((scoreRow th m).classification = "Loser (early LP remove)" →
      (scoreRow th m).reason = "LP removed <=15m") := by
  unfold scoreRow classifyPair
  split_ifs <;>
    exact ⟨fun h => by
             simp only [] at h ⊢
             all_goals first | rfl | exact absurd h (by decide),
           fun h => by
             simp only [] at h ⊢
             all_goals first | rfl | exact absurd h (by decide)⟩

/-- Witness for C8 applying the amended theorem at the two concrete rows. -/
theorem claim_C8_amended_witness :
    (scoreRow defaultThresholds mNoTrade).reason = "No trade <=10m" ∧
    (scoreRow defaultThresholds mLpRemove).reason = "LP removed <=15m" :=
  ⟨(claim_C8_amended defaultThresholds mNoTrade).1 (by rw [scoreRow_mNoTrade_eval]),
   (claim_C8_amended defaultThresholds mLpRemove).2 (by rw [scoreRow_mLpRemove_eval])⟩

/-- A high-velocity, high-uniques row whose top-5 concentration breaches
the default gate (so it is not an Early Leader). -/
def mHype : MetricsRow :=
  { time_to_first_trade_s := .fin 5
    first_trade_ts := some 5
    swaps_in_burst := 200
    swaps_per_min_burst := 100
    uniq_traders_10m := 100
    buy_ratio_15m := some (55/100)
    top5_concentration := some (9/10)
    lp_add_usd_15 := 0
    lp_remove_usd_15 := 0 }

/-- The same row with a positive LP removal. -/
def mHypeRem : MetricsRow := { mHype with lp_remove_usd_15 := 100 }

/-- The same row with a dispersed trader base: an Early Leader under the
default thresholds. -/
def mLead : MetricsRow := { mHype with top5_concentration := some (1/10) }

theorem scoreRow_mHype_eval :
    (scoreRow defaultThresholds mHype).classification = "Hype / Risky" := by
  unfold scoreRow classifyPair
  norm_num [gateVelocity, gateUniques, gateBr, gateConc, gateTradeable, gateLpOk,
    earlyScore, score01, rawScore, sVel, sUniq, sBr, sConc, lpPen, clamp01,
    defaultThresholds, mHype, eps, round1, rhe, min_def, max_def, Int.fract]

theorem scoreRow_mHypeRem_eval :
    (scoreRow defaultThresholds mHypeRem).classification = "Hype / Risky" := by
  unfold scoreRow classifyPair
  norm_num [gateVelocity, gateUniques, gateBr, gateConc, gateTradeable, gateLpOk,
    earlyScore, score01, rawScore, sVel, sUniq, sBr, sConc, lpPen, clamp01,
    defaultThresholds, mHypeRem, mHype, eps, round1, rhe, min_def, max_def, Int.fract]

theorem scoreRow_mLead_eval :
    (scoreRow defaultThresholds mLead).classification = "Early Leader" := by
  unfold scoreRow classifyPair
  norm_num [gateVelocity, gateUniques, gateBr, gateConc, gateTradeable, gateLpOk,
    earlyScore, score01, rawScore, sVel, sUniq, sBr, sConc, lpPen, clamp01,
    defaultThresholds, mLead, mHype, eps, round1, rhe, min_def, max_def, Int.fract]

/-- C6 counterexample: two concrete rows identical in every feature except
`lp_remove_usd_15` (0 versus 100) receive the same classification
"Hype / Risky" — refuting the claimed "different (lower-tier)
classification" for otherwise-equal rows. -/
theorem claim_C6_counterexample :
    mHypeRem = { mHype with lp_remove_usd_15 := 100 } ∧
    mHype.lp_remove_usd_15 = 0 ∧ (0 : ℚ) < mHypeRem.lp_remove_usd_15 ∧
    (scoreRow defaultThresholds mHypeRem).classification =
      (scoreRow defaultThresholds mHype).classification := by
  refine ⟨rfl, rfl, by norm_num [mHypeRem, mHype], ?_⟩
  rw [scoreRow_mHype_eval, scoreRow_mHypeRem_eval]

/-- C6 amended: the row with positive LP removal always has a lower or
equal early score; and when the unpenalized row is classified Early Leader
with `leader_score_min > 10`, the penalized row drops to the lower tier
"Hype / Risky" (in general the two classifications may coincide, as the
counterexample shows). -/
theorem claim_C6_amended (th : Thresholds) (m : MetricsRow) (x : ℚ)
    (h0 : m.lp_remove_usd_15 = 0) (hx : 0 < x) :
    earlyScore th { m with lp_remove_usd_15 := x } ≤ earlyScore th m ∧
    ((scoreRow th m).classification = "Early Leader" → 10 < th.leader_score_min →
      (scoreRow th { m with lp_remove_usd_15 := x }).classification = "Hype / Risky") := by
  set m' : MetricsRow := { m with lp_remove_usd_15 := x } with hm'
  have hpen1 : lpPen m' = 1 := lpPen_eq_one hx
  have hpen0 : lpPen m = 0 := lpPen_eq_zero (by rw [h0]; exact lt_irrefl 0)
  have hraw : rawScore th m' = rawScore th m := rfl
  have hs : score01 th m' ≤ score01 th m := by
    unfold score01
    rw [hpen1, hpen0, hraw]
    have := rawScore_nonneg th m
    linarith
  constructor
  · unfold earlyScore
    exact round1_mono (by have := clamp01_mono hs; linarith)
  · intro hEL hlm
    rw [classification_eq_leader_iff] at hEL
    simp only [Bool.and_eq_true, decide_eq_true_eq] at hEL
    obtain ⟨⟨⟨⟨hv, hu⟩, hb⟩, hc⟩, hsc⟩ := hEL
    have hsc' : earlyScore th m' ≤ 10 := earlyScore_le_ten_of_lpRemove th m' hx
    have hv' : gateVelocity th m' = true := hv
    have hu' : gateUniques th m' = true := hu
    have hc1 : ¬ ((gateVelocity th m' && gateUniques th m' && gateBr th m'
        && gateConc th m' && decide (th.leader_score_min ≤ earlyScore th m')) = true) := by
      simp only [Bool.and_eq_true, decide_eq_true_eq]
      intro hcontra
      have := hcontra.2
      linarith
    have hc2 : (decide (35 ≤ earlyScore th m')
        || (gateVelocity th m' && (gateUniques th m' || gateBr th m'))) = true := by
      simp [hv', hu']
    unfold scoreRow classifyPair
    simp only []
    rw [if_neg hc1, if_pos hc2]

/-- Witness for C6 applying the amended theorem at a concrete Early Leader
row with LP removal 40. -/
theorem claim_C6_amended_witness :
    earlyScore defaultThresholds { mLead with lp_remove_usd_15 := 40 } ≤
      earlyScore defaultThresholds mLead ∧
    (scoreRow defaultThresholds
      { mLead with lp_remove_usd_15 := 40 }).classification = "Hype / Risky" :=
  ⟨(claim_C6_amended defaultThresholds mLead 40 rfl (by norm_num)).1,
   (claim_C6_amended defaultThresholds mLead 40 rfl (by norm_num)).2
     scoreRow_mLead_eval (by norm_num [defaultThresholds])⟩

/-- C5: `compute_early_metrics` returns one output row per input pair, in
order, with the pair identities untouched (only metric columns added), and
`score_and_classify` likewise preserves the row count of its input. -/
theorem claim_C5_row_preservation (bW uW rW : ℚ) (swaps : SwapsTable)
    (pwm : List PwmRow) (lp : List LpRow) (pairs : List PairRow)
    (th : Thresholds) (l : List (PairRow × MetricsRow)) :
    (computeEarlyMetrics bW uW rW swaps pwm lp pairs).map Prod.fst = pairs ∧
    (computeEarlyMetrics bW uW rW swaps pwm lp pairs).length = pairs.length ∧
    (scoreAndClassify th l).length = l.length := by
  unfold computeEarlyMetrics scoreAndClassify
  refine ⟨?_, by simp, by simp⟩
  induction pairs with
  | nil => rfl
  | cons a t ih => simp_all

/-- C9: the two-stage pipeline is a pure function of its four input tables
and the threshold configuration — equal inputs give equal outputs. -/
theorem claim_C9_determinism (bW uW rW : ℚ) (th : Thresholds)
    (s1 s2 : SwapsTable) (w1 w2 : List PwmRow) (l1 l2 : List LpRow)
    (p1 p2 : List PairRow)
    (hs : s1 = s2) (hw : w1 = w2) (hl : l1 = l2) (hp : p1 = p2) :
    pipeline bW uW rW th s1 w1 l1 p1 = pipeline bW uW rW th s2 w2 l2 p2 := by
  subst hs; subst hw; subst hl; subst hp; rfl

/-- Witness for C9 at a concrete single-pair input. -/
theorem claim_C9_determinism_witness :
    pipeline 120 10 15 defaultThresholds
        { rows := [], hasSide := true, hasTrader := true, hasAmountUsd := true,
          hasAmountIn := true, hasAmountOut := true } [] []
        [{ pair_address := some "p", pair_created_at := some 0, snapshot_ts := none }] =
      pipeline 120 10 15 defaultThresholds
        { rows := [], hasSide := true, hasTrader := true, hasAmountUsd := true,
          hasAmountIn := true, hasAmountOut := true } [] []
        [{ pair_address := some "p", pair_created_at := some 0, snapshot_ts := none }] :=
  claim_C9_determinism 120 10 15 defaultThresholds _ _ _ _ _ _ _ _ rfl rfl rfl rfl

/-- C3: a pair with a pair identifier and an effective creation instant
but zero post-creation swaps gets `time_to_first_trade_s = +inf`, every
burst/uniques/buy-ratio/concentration field at its sentinel, LP totals
still computed from the liquidity-events table, a numeric early score
(3/2 with LP removal, 15 without — never NaN), and, whenever
`min_swaps_per_min` is positive, the classification
"Loser (no early trades)". -/
theorem claim_C3_zero_swaps (bW uW rW : ℚ) (swaps : SwapsTable)
    (pwm : List PwmRow) (lp : List LpRow) (p : PairRow) (addr : String)
    (created : ℚ) (th : Thresholds)
    (h1 : p.pair_address = some addr) (h2 : effectiveCreatedAt p = some created)
    (h3 : postCreationSwaps swaps addr created = [])
    (hth : 0 < th.min_swaps_per_min) :
    let m := computeEarlyMetricsRow bW uW rW swaps pwm lp p
    m.time_to_first_trade_s = .inf ∧ m.first_trade_ts = none ∧
    m.swaps_in_burst = 0 ∧ m.swaps_per_min_burst = 0 ∧ m.uniq_traders_10m = 0 ∧
    m.buy_ratio_15m = none ∧ m.top5_concentration = none ∧
    m.lp_add_usd_15 = (lpSums lp addr created).1 ∧
    m.lp_remove_usd_15 = (lpSums lp addr created).2 ∧
    earlyScore th m = (if 0 < (lpSums lp addr created).2 then 3/2 else 15) ∧
    (scoreRow th m).classification = "Loser (no early trades)" := by
  intro m
  have hrow : m = { sentinelRow with
      time_to_first_trade_s := .inf
      lp_add_usd_15 := (lpSums lp addr created).1
      lp_remove_usd_15 := (lpSums lp addr created).2 } := by
    show computeEarlyMetricsRow bW uW rW swaps pwm lp p = _
    unfold computeEarlyMetricsRow
    rw [h1, h2]
    simp only [h3]
    rfl
  have hscore : earlyScore th m = (if 0 < (lpSums lp addr created).2 then 3/2 else 15) := by
    rw [hrow]
    by_cases hpos : 0 < (lpSums lp addr created).2
    · rw [if_pos hpos]
      unfold earlyScore score01 rawScore
      rw [lpPen_eq_one hpos]
      norm_num [sVel, sUniq, sBr, sConc, sentinelRow, clamp01, round1, rhe,
        min_def, max_def, Int.fract]
    · rw [if_neg hpos]
      unfold earlyScore score01 rawScore
      rw [lpPen_eq_zero hpos]
      norm_num [sVel, sUniq, sBr, sConc, sentinelRow, clamp01, round1, rhe,
        min_def, max_def, Int.fract]
  have hvel : gateVelocity th m = false := by
    rw [hrow]
    simp only [gateVelocity, sentinelRow, decide_eq_false_iff_not]
    intro hcontra
    exact absurd (le_antisymm hcontra (le_of_lt hth)) (ne_of_gt hth)
  have hsc15 : earlyScore th m ≤ 15 := by
    rw [hscore]
    split_ifs <;> norm_num
  have hlabel : (scoreRow th m).classification = "Loser (no early trades)" := by
    have hc1 : ¬ ((gateVelocity th m && gateUniques th m && gateBr th m
        && gateConc th m && decide (th.leader_score_min ≤ earlyScore th m)) = true) := by
      simp [hvel]
    have hc2 : ¬ ((decide (35 ≤ earlyScore th m)
        || (gateVelocity th m && (gateUniques th m || gateBr th m))) = true) := by
      simp [hvel, decide_eq_true_eq]
      linarith
    have hc3 : (! gateTradeable th m) = true := by
      rw [hrow]
      rfl
    unfold scoreRow classifyPair
    simp only []
    rw [if_neg hc1, if_neg hc2, if_pos hc3]
  rw [hrow] at *
  exact ⟨rfl, rfl, rfl, rfl, rfl, rfl, rfl, rfl, rfl, hscore, hlabel⟩

/-- An empty swaps table (all columns present, no rows). -/
def swapsEmptyTbl : SwapsTable :=
  { rows := [], hasSide := true, hasTrader := true, hasAmountUsd := true,
    hasAmountIn := true, hasAmountOut := true }

/-- A pair created at instant 0. -/
def pairAtZero : PairRow :=
  { pair_address := some "p", pair_created_at := some 0, snapshot_ts := none }

/-- Two liquidity events for that pair inside the 15-minute window. -/
def lpEventsW : List LpRow :=
  [{ pair_address := "p", ts := some 30, action := some "add", value_usd := some 500 },
   { pair_address := "p", ts := some 40, action := some "remove", value_usd := some 200 }]

/-- Witness for C3 at a concrete pair with no swaps but two LP events. -/
theorem claim_C3_zero_swaps_witness :
    (computeEarlyMetricsRow 120 10 15 swapsEmptyTbl [] lpEventsW pairAtZero).time_to_first_trade_s
      = .inf ∧
    (computeEarlyMetricsRow 120 10 15 swapsEmptyTbl [] lpEventsW pairAtZero).lp_add_usd_15
      = (lpSums lpEventsW "p" 0).1 ∧
    (computeEarlyMetricsRow 120 10 15 swapsEmptyTbl [] lpEventsW pairAtZero).lp_remove_usd_15
      = (lpSums lpEventsW "p" 0).2 ∧
    (scoreRow defaultThresholds
      (computeEarlyMetricsRow 120 10 15 swapsEmptyTbl [] lpEventsW pairAtZero)).classification
      = "Loser (no early trades)" := by
  obtain ⟨a, -, -, -, -, -, -, h8, h9, -, hcl⟩ :=
    claim_C3_zero_swaps 120 10 15 swapsEmptyTbl [] lpEventsW pairAtZero "p" 0
      defaultThresholds rfl rfl rfl (by norm_num [defaultThresholds])
  exact ⟨a, h8, h9, hcl⟩

theorem length_filter_map_self {α : Type} (l : List α) (f : α → Bool) :
    ((l.map f).filter (fun b => b)).length = (l.filter f).length := by
  induction l with
  | nil => rfl
  | cons a t ih => cases hfa : f a <;> simp [List.filter_cons, hfa, ih]

theorem length_filter_map_not {α : Type} (l : List α) (f : α → Bool) :
    ((l.map f).filter (fun b => !b)).length = (l.filter (fun a => ! f a)).length := by
  induction l with
  | nil => rfl
  | cons a t ih => cases hfa : f a <;> simp [List.filter_cons, hfa, ih]

/-- The buy-ratio cell computed by the code agrees everywhere with the
amended policy. -/
theorem buyRatioOf_eq_amended (tbl : SwapsTable) (pwm : List PwmRow) (addr : String)
    (created ft ratioM : ℚ) :
    buyRatioOf tbl pwm addr created ft ratioM
      = amendedBuyRatio tbl pwm addr created ft ratioM := by
  unfold buyRatioOf amendedBuyRatio swapBuyRatio buyMask
  simp only []
  set w := windowSwaps (postCreationSwaps tbl addr created) ft (ft + 60 * ratioM) with hw
  by_cases hcond : (!w.isEmpty && tbl.hasSide) = true
  · rw [if_pos hcond, if_pos hcond]
    have hside : tbl.hasSide = true := by
      have h := hcond
      simp only [Bool.and_eq_true] at h
      exact h.2
    by_cases hany : (w.any (fun s => s.side.isSome)) = true
    · rw [if_pos hany, if_pos (by rw [hside, hany]; decide)]
      rw [length_filter_map_self w sideIsBuy, length_filter_map_not w sideIsBuy]
    · have hany' : (w.any (fun s => s.side.isSome)) = false := by
        revert hany
        cases w.any (fun s => s.side.isSome) <;> simp
      rw [if_neg hany, if_neg (by simp [hany'])]
      rw [length_filter_map_self (List.range w.length) (fun i => i % 2 == 0),
          length_filter_map_not (List.range w.length) (fun i => i % 2 == 0)]
  · rw [if_neg hcond, if_neg hcond]

/-- For a pair with a first trade, the `buy_ratio_15m` cell of the
extractor's output row is the `buyRatioOf` helper value. -/
theorem buy_ratio_field (bW uW ratioM : ℚ) (tbl : SwapsTable) (pwm : List PwmRow)
    (lp : List LpRow) (p : PairRow) (addr : String) (created ft : ℚ)
    (h1 : p.pair_address = some addr) (h2 : effectiveCreatedAt p = some created)
    (h3 : firstTradeTs (postCreationSwaps tbl addr created) = some ft) :
    (computeEarlyMetricsRow bW uW ratioM tbl pwm lp p).buy_ratio_15m
      = buyRatioOf tbl pwm addr created ft ratioM := by
  unfold computeEarlyMetricsRow
  rw [h1, h2]
  simp only [h3]

/-- A swap whose `side` cell is null. -/
def swapNoSide : SwapRow :=
  { pair_address := "p", ts := some 10, trader_wallet := some "A",
    side := none, amount_in := none, amount_out := none, amount_usd := none }

/-- A swaps table carrying the side column, but with the only swap's side
value null. -/
def swapsAllNullSide : SwapsTable :=
  { rows := [swapNoSide], hasSide := true, hasTrader := true, hasAmountUsd := true,
    hasAmountIn := true, hasAmountOut := true }

/-- A window-metrics row for the same pair inside the ratio window. -/
def pwmFallbackRows : List PwmRow :=
  [{ pair_address := "p", snapshot_ts := some 60, buys := some 2, sells := some 8 }]

theorem postCreation_swapsAllNullSide :
    postCreationSwaps swapsAllNullSide "p" 0 = [swapNoSide] := by
  norm_num [postCreationSwaps, swapsAllNullSide, List.filter, swapNoSide]

theorem window_swapNoSide :
    windowSwaps [swapNoSide] 10 (10 + 60 * 15) = [swapNoSide] := by
  norm_num [windowSwaps, List.filter, swapNoSide]

theorem firstTrade_swapNoSide : firstTradeTs [swapNoSide] = some 10 := by
  norm_num [firstTradeTs, List.filterMap, swapNoSide]

/-- C4 counterexample: the pair's only in-window swap has a null side
while the side column exists, and a window-metrics row carries
buys=2/sells=8; the code synthesizes a parity side and returns
`buy_ratio_15m = 1`, whereas the claimed policy ("side data present and
non-empty, else fall back") would return the fallback value 1/5.
Moreover, at a row whose `buy_ratio_15m` is null, the code's `gate_br` is
False, refuting the claim's "the buy_ratio_ok gate is treated as true". -/
theorem claim_C4_counterexample :
    (computeEarlyMetricsRow 120 10 15 swapsAllNullSide pwmFallbackRows []
        pairAtZero).buy_ratio_15m = some 1 ∧
    claimBuyRatio swapsAllNullSide pwmFallbackRows "p" 0 10 15 = some (1/5) ∧
    (computeEarlyMetricsRow 120 10 15 swapsAllNullSide pwmFallbackRows []
        pairAtZero).buy_ratio_15m ≠
      claimBuyRatio swapsAllNullSide pwmFallbackRows "p" 0 10 15 ∧
    sentinelRow.buy_ratio_15m = none ∧
    gateBr defaultThresholds sentinelRow = false := by
  have hfield := buy_ratio_field 120 10 15 swapsAllNullSide pwmFallbackRows []
    pairAtZero "p" 0 10 rfl rfl
    (by rw [postCreation_swapsAllNullSide]; exact firstTrade_swapNoSide)
  have hcode : buyRatioOf swapsAllNullSide pwmFallbackRows "p" 0 10 15 = some 1 := by
    unfold buyRatioOf
    rw [postCreation_swapsAllNullSide, window_swapNoSide]
    norm_num [swapsAllNullSide, swapBuyRatio, buyMask, swapNoSide, List.range,
      List.filter, max_def]
  have hclaim : claimBuyRatio swapsAllNullSide pwmFallbackRows "p" 0 10 15
      = some (1/5) := by
    unfold claimBuyRatio
    rw [postCreation_swapsAllNullSide, window_swapNoSide]
    norm_num [swapNoSide, pwmRowsFor, pwmWindow, pwmFallbackRows, List.filter]
  refine ⟨hfield.trans hcode, hclaim, ?_, rfl, rfl⟩
  rw [hfield.trans hcode, hclaim]
  norm_num

/-- C4 amended: for a pair with a first trade, `buy_ratio_15m` follows the
amended policy — the per-swap branch fires whenever the buy-ratio window
is non-empty and the table has a side column (with parity-synthesized
sides when every side value is null, and the `max(·,1)` guard also in the
fallback); otherwise the window-metrics fallback over
`[created, created + ratio window]`; null when both sources are empty, in
which case the buy-ratio gate FAILS (pandas `between` yields False on the
null and the `fillna(True)` is a no-op). -/
theorem claim_C4_amended (bW uW ratioM : ℚ) (tbl : SwapsTable) (pwm : List PwmRow)
    (lp : List LpRow) (p : PairRow) (addr : String) (created ft : ℚ) (th : Thresholds)
    (h1 : p.pair_address = some addr) (h2 : effectiveCreatedAt p = some created)
    (h3 : firstTradeTs (postCreationSwaps tbl addr created) = some ft) :
    (computeEarlyMetricsRow bW uW ratioM tbl pwm lp p).buy_ratio_15m
      = amendedBuyRatio tbl pwm addr created ft ratioM ∧
    ((computeEarlyMetricsRow bW uW ratioM tbl pwm lp p).buy_ratio_15m = none →
      gateBr th (computeEarlyMetricsRow bW uW ratioM tbl pwm lp p) = false) := by
  have hfield := buy_ratio_field bW uW ratioM tbl pwm lp p addr created ft h1 h2 h3
  refine ⟨hfield.trans (buyRatioOf_eq_amended tbl pwm addr created ft ratioM),
    fun hnone => ?_⟩
  unfold gateBr
  rw [hnone]

/-- A swaps table without the side column whose only swap trades at 5. -/
def swapsNoSideCol : SwapsTable :=
  { rows := [{ pair_address := "p", ts := some 5, trader_wallet := some "A",
               side := none, amount_in := none, amount_out := none, amount_usd := none }],
    hasSide := false, hasTrader := true, hasAmountUsd := true,
    hasAmountIn := true, hasAmountOut := true }

/-- Witness for C4 at a concrete pair whose side column is absent and
whose window-metrics table is empty: both sources empty, ratio null, gate
fails. -/
theorem claim_C4_amended_witness :
    (computeEarlyMetricsRow 120 10 15 swapsNoSideCol [] [] pairAtZero).buy_ratio_15m
      = amendedBuyRatio swapsNoSideCol [] "p" 0 5 15 ∧
    gateBr defaultThresholds
      (computeEarlyMetricsRow 120 10 15 swapsNoSideCol [] [] pairAtZero) = false := by
  have hft : firstTradeTs (postCreationSwaps swapsNoSideCol "p" 0) = some 5 := by
    norm_num [postCreationSwaps, firstTradeTs, swapsNoSideCol, List.filter, List.filterMap]
  have h := claim_C4_amended 120 10 15 swapsNoSideCol [] [] pairAtZero "p" 0 5
    defaultThresholds rfl rfl hft
  refine ⟨h.1, h.2 ?_⟩
  rw [h.1]
  norm_num [amendedBuyRatio, swapsNoSideCol, pwmRowsFor, List.filter]

/-- The single swap of the C7 scenario: buy, 100 USD, trader A, at T0+5s. -/
def swapBuyA : SwapRow :=
  { pair_address := "p", ts := some 5, trader_wallet := some "A",
    side := some "buy", amount_in := none, amount_out := none, amount_usd := some 100 }

/-- Swaps table of the C7 scenario. -/
def swapsOneBuy : SwapsTable :=
  { rows := [swapBuyA], hasSide := true, hasTrader := true, hasAmountUsd := true,
    hasAmountIn := true, hasAmountOut := true }

/-- The metrics row the C7 scenario should produce. -/
def mOneBuy : MetricsRow :=
  { time_to_first_trade_s := .fin 5
    first_trade_ts := some 5
    swaps_in_burst := 1
    swaps_per_min_burst := 1/2
    uniq_traders_10m := 1
    buy_ratio_15m := some 1
    top5_concentration := some 1
    lp_add_usd_15 := 0
    lp_remove_usd_15 := 0 }

theorem buyMask_swapBuyA : buyMask true [swapBuyA] = [true] := by decide

/-- Concentration of a single-buy window whose only trader carries the
whole (positive) weight: trivially 1. -/
theorem concentrationOf_single (tbl : SwapsTable) (s : SwapRow) (w : String) (a : ℚ)
    (hT : tbl.hasTrader = true)
    (hmask : buyMask tbl.hasSide [s] = [true])
    (htr : s.trader_wallet = some w)
    (hamt : amountForConcentration tbl [s] = [a])
    (ha : 0 < a) :
    concentrationOf tbl [s] = some 1 := by
  unfold concentrationOf
  simp only [hT, hmask, hamt]
  simp [htr, hamt, sortDesc, insertDesc, ha, div_self (ne_of_gt ha)]

theorem computeEarlyMetricsRow_oneBuy :
    computeEarlyMetricsRow 120 10 15 swapsOneBuy [] [] pairAtZero = mOneBuy := by
  have hpost : postCreationSwaps swapsOneBuy "p" 0 = [swapBuyA] := by
    norm_num [postCreationSwaps, swapsOneBuy, List.filter, swapBuyA]
  have hft : firstTradeTs [swapBuyA] = some 5 := by
    norm_num [firstTradeTs, List.filterMap, swapBuyA]
  have hw120 : windowSwaps [swapBuyA] 5 (5 + 120) = [swapBuyA] := by
    norm_num [windowSwaps, List.filter, swapBuyA]
  have hw600 : windowSwaps [swapBuyA] 5 (5 + 60 * 10) = [swapBuyA] := by
    norm_num [windowSwaps, List.filter, swapBuyA]
  have hw900 : windowSwaps [swapBuyA] 5 (5 + 60 * 15) = [swapBuyA] := by
    norm_num [windowSwaps, List.filter, swapBuyA]
  have hdedup : (([swapBuyA].filterMap (fun s => s.trader_wallet)).dedup) = ["A"] := by
    decide
  have huniq : uniqTradersOf swapsOneBuy [swapBuyA] = 1 := by
    norm_num [uniqTradersOf, swapsOneBuy, hdedup]
  have hsbr : swapBuyRatio true [swapBuyA] = 1 := by
    unfold swapBuyRatio
    rw [buyMask_swapBuyA]
    norm_num [List.filter, max_def]
  have hbr : buyRatioOf swapsOneBuy [] "p" 0 5 15 = some 1 := by
    unfold buyRatioOf
    simp only []
    rw [hpost, hw900]
    rw [if_pos (by decide)]
    rw [show swapsOneBuy.hasSide = true from rfl, hsbr]
  have hamt : amountForConcentration swapsOneBuy [swapBuyA] = [100] := by
    norm_num [amountForConcentration, swapsOneBuy, swapBuyA]
  have hconc : concentrationOf swapsOneBuy [swapBuyA] = some 1 :=
    concentrationOf_single swapsOneBuy swapBuyA "A" 100 rfl buyMask_swapBuyA rfl hamt
      (by norm_num)
  have hlp : lpSums [] "p" 0 = (0, 0) := rfl
  unfold computeEarlyMetricsRow
  rw [show pairAtZero.pair_address = some "p" from rfl,
      show effectiveCreatedAt pairAtZero = some 0 from rfl]
  simp only [hpost, hft]
  rw [hw120, hw600, hw900, huniq, hbr, hconc, hlp]
  unfold mOneBuy
  norm_num [MetricsRow.mk.injEq, max_def]

set_option maxRecDepth 4000 in
theorem scoreRow_mOneBuy_eval :
    (scoreRow defaultThresholds mOneBuy).classification = "Loser" := by
  unfold scoreRow classifyPair
  norm_num [gateVelocity, gateUniques, gateBr, gateConc, gateTradeable, gateLpOk,
    earlyScore, score01, rawScore, sVel, sUniq, sBr, sConc, lpPen, clamp01,
    defaultThresholds, mOneBuy, eps, round1, rhe, min_def, max_def, Int.fract,
    abs_of_nonneg, abs_of_nonpos]

/-- C7: the concrete scenario — pair created at T0 = 0, one buy swap of
100 USD by trader A at T0+5s, no other events — yields exactly the
expected metrics (time-to-first-trade 5 s, 1 burst swap, 0.5 swaps/min,
1 unique trader, buy ratio 1.0, concentration 1.0, LP totals 0), the
default velocity gate (min 20 swaps/min) fails, and the classification is
"Loser", never "Early Leader". -/
theorem claim_C7_concrete_scenario :
    computeEarlyMetricsRow 120 10 15 swapsOneBuy [] [] pairAtZero = mOneBuy ∧
    gateVelocity defaultThresholds mOneBuy = false ∧
    (scoreRow defaultThresholds mOneBuy).classification = "Loser" ∧
    "Loser" ≠ "Early Leader" := by
  refine ⟨computeEarlyMetricsRow_oneBuy, ?_, scoreRow_mOneBuy_eval, by decide⟩
  norm_num [gateVelocity, defaultThresholds, mOneBuy]

end Trench
